import Mathlib

/-!
Verification development for the PDF annotation editor
(`src/src/features/third/index.tsx`).

The component keeps an ordered list of committed annotations plus the
loose fields of one in-progress draft, and re-renders the document
through pdf-lib (`PDFDocument.load` / `applyAnnotationToPage` /
`pdfDoc.save`) on every change.  We embed the annotation data model,
the color codec `hexToRgb`, the compositing dispatcher
`applyAnnotationToPage`, and the two pipeline entry points
`updatePdfPreview` and `downloadPdf` as pure Lean functions, treating
the external pdf-lib codec as a deterministic function of the decoded
document state (spec §4.4).
-/

set_option linter.unusedVariables false

/-- Closed annotation kind union, from the `type` field of the source
`Annotation` record (index.tsx lines 6-13). -/
inductive AnnType where
  | text
  | highlight
  | underline
  | comment
  | signature
deriving DecidableEq, Repr

/-- Axis-aligned rectangle `{x, y, width, height}`; caller-supplied
integers (the UI feeds `parseInt` results). -/
structure Pos where
  x : Int
  y : Int
  width : Int
  height : Int
deriving DecidableEq, Repr

/-- The `Annotation` record of index.tsx lines 6-13. -/
structure Annotation where
  id : String
  type : AnnType
  content : String
  position : Pos
  color : Option String := none
  imageData : Option String := none
deriving DecidableEq, Repr

/-- Result record of `hexToRgb`: three channels, each intended to lie
in `[0, 255]`. -/
structure RGB255 where
  r : Nat
  g : Nat
  b : Nat
deriving DecidableEq, Repr

/-- A unit-scaled color as handed to pdf-lib's `rgb(...)`. -/
structure URGB where
  r : Rat
  g : Rat
  b : Rat
deriving DecidableEq, Repr

/-- Character class `[a-f\d]` of the source regex with the `i` flag:
decimal digit, `a`-`f`, or `A`-`F`. -/
def isHexDigitChar (c : Char) : Bool :=
  decide ((48 ≤ c.toNat ∧ c.toNat ≤ 57) ∨ (97 ≤ c.toNat ∧ c.toNat ≤ 102) ∨
    (65 ≤ c.toNat ∧ c.toNat ≤ 70))

/-- Value of one hex digit, as `parseInt(_, 16)` computes it on the
characters accepted by the regex. -/
def hexVal (c : Char) : Nat :=
  if 48 ≤ c.toNat ∧ c.toNat ≤ 57 then c.toNat - 48
  else if 97 ≤ c.toNat then c.toNat - 87
  else c.toNat - 55

/-- Matched portion of the `hexToRgb` regex: the optional leading `#`
stripped from the character list. -/
def hexBody (hex : String) : List Char :=
  if hex.data.head? = some '#' then hex.data.tail else hex.data

/-- Group-parsing step of `hexToRgb`: exactly six hex digits split into
three two-digit groups, each parsed base 16; any other list fails the
regex and yields black. -/
def hexToRgbList : List Char → RGB255
  | [a, b, c, d, e, f] =>
      if isHexDigitChar a && isHexDigitChar b && isHexDigitChar c &&
         isHexDigitChar d && isHexDigitChar e && isHexDigitChar f then
        ⟨hexVal a * 16 + hexVal b, hexVal c * 16 + hexVal d, hexVal e * 16 + hexVal f⟩
      else ⟨0, 0, 0⟩
  | _ => ⟨0, 0, 0⟩

/-- Embedding of `hexToRgb` (index.tsx lines 373-380): the regex
`/^#?([a-f\d]{2})([a-f\d]{2})([a-f\d]{2})$/i` demands an optional
leading `#` and then exactly six hex digits; on a match the three
two-digit groups are parsed base 16, otherwise the result is black
`{r: 0, g: 0, b: 0}`. -/
def hexToRgb (hex : String) : RGB255 :=
  hexToRgbList (hexBody hex)

/-- The shape the spec describes for `parseColor` (spec §4.2): an
optional leading `#` followed by exactly 6 hex digits,
case-insensitively.  Written from the spec's words, to be compared
with the source regex embedded in `hexToRgb`. -/
def specColorShape (s : String) : Bool :=
  (hexBody s).length = 6 && (hexBody s).all isHexDigitChar

/-! Signature payload decoding.  The source turns the data-URI payload
into bytes with `atob(annotation.imageData.split(',')[1])` plus
`charCodeAt`, then hands them to pdf-lib's `embedPng`, which rejects
bytes that are not a PNG stream.  `atob` and `embedPng` are external
(browser builtin / pdf-lib); their failure conditions are modelled
from the spec (§4.4 `embedRasterImage` fails with an `EmbedError` on
malformed image bytes). -/

/-- Value of one base64 alphabet character, `none` outside the
alphabet (where `atob` raises `InvalidCharacterError`). -/
def b64Val (c : Char) : Option Nat :=
  let n := c.toNat
  if 65 ≤ n ∧ n ≤ 90 then some (n - 65)
  else if 97 ≤ n ∧ n ≤ 122 then some (n - 71)
  else if 48 ≤ n ∧ n ≤ 57 then some (n + 4)
  else if c = '+' then some 62
  else if c = '/' then some 63
  else none

/-- Decode one four-character base64 chunk into up to three bytes,
honouring trailing `=` padding. -/
def b64Chunk (a b c d : Char) : Option (List Nat) := do
  let va ← b64Val a
  let vb ← b64Val b
  if d = '=' then
    if c = '=' then
      pure [va * 4 + vb / 16]
    else do
      let vc ← b64Val c
      pure [va * 4 + vb / 16, (vb % 16) * 16 + vc / 4]
  else do
    let vc ← b64Val c
    let vd ← b64Val d
    pure [va * 4 + vb / 16, (vb % 16) * 16 + vc / 4, (vc % 4) * 64 + vd]

/-- Decode a base64 character list chunk by chunk; `=` padding is only
legal in the final chunk, and the length must be a multiple of four —
otherwise `atob` throws. -/
def b64Rec : List Char → Option (List Nat)
  | [] => pure []
  | a :: b :: c :: d :: rest =>
      if c = '=' ∨ d = '=' then
        if rest = [] then b64Chunk a b c d else none
      else do
        let bytes ← b64Chunk a b c d
        let more ← b64Rec rest
        pure (bytes ++ more)
  | _ => none

/-- Modelled from the spec: the browser `atob` builtin used at
index.tsx line 297 (external, not in src/), decoding base64 text to a
byte list and failing on any malformed input. -/
def atobDecode (s : String) : Option (List Nat) :=
  b64Rec s.data

/-- The eight-byte PNG stream signature. -/
def pngSig : List Nat := [137, 80, 78, 71, 13, 10, 26, 10]

/-- Modelled from the spec: pdf-lib's `pdfDoc.embedPng` (external, not
in src/), which per §4.4 embeds the raster image as a reusable
resource and fails with an `EmbedError` on malformed image bytes;
modelled as requiring the PNG stream signature and returning the
embedded bytes as the image handle. -/
def embedPng (bytes : List Nat) : Option (List Nat) :=
  if pngSig.isPrefixOf bytes then some bytes else none

/-- Helper for `String.prototype.split(',')`: cut a character list at
every comma. -/
def splitCommaAux : List Char → List Char → List (List Char)
  | [], acc => [acc.reverse]
  | c :: rest, acc =>
      if c = ',' then acc.reverse :: splitCommaAux rest []
      else splitCommaAux rest (c :: acc)

/-- The `imageData.split(',')` call of index.tsx line 297. -/
def splitComma (s : String) : List String :=
  (splitCommaAux s.data []).map List.asString

/-- Full signature-payload pipeline of index.tsx lines 296-301:
`split(',')[1]`, `atob`, `charCodeAt` collection, `embedPng`.  Any
failure is the `catch` case. -/
def decodeDataUrl (s : String) : Option (List Nat) := do
  let part ← (splitComma s).get? 1
  let bytes ← atobDecode part
  embedPng bytes

/-- JavaScript truthiness of the optional strings guarding the
`highlight`/`underline` branches: `undefined` and `""` are falsy. -/
def strTruthy : Option String → Bool
  | some s => !s.isEmpty
  | none => false

/-- The `signatureData || undefined` coercion (index.tsx lines 224 and
339): a falsy value (absent or empty) becomes `undefined`. -/
def orUndefined : Option String → Option String
  | some s => if s.isEmpty then none else some s
  | none => none

/-! The page model: a page is the list of drawing operations pdf-lib
has received for it, in order.  The `draft` visual distinction enters
through the color/opacity arguments computed from `isPreview`. -/

/-- One pdf-lib drawing call with its arguments. -/
inductive Mark where
  | textMark (content : String) (x y : Int) (size : Nat) (font : String) (color : URGB)
  | rectMark (x y width height : Int) (color : URGB) (opacity : Rat)
  | lineMark (sx sy ex ey : Int) (thickness : Nat) (color : URGB) (opacity : Rat)
  | imageMark (handle : List Nat) (x y : Int) (width height : Int) (opacity : Rat)
deriving DecidableEq, Repr

/-- A page: accumulated drawing operations in call order. -/
abbrev Page := List Mark

/-- Unit-scaling of a parsed color, `rgb(r/255, g/255, b/255)`. -/
def unitRGB (c : RGB255) : URGB :=
  ⟨(c.r : Rat) / 255, (c.g : Rat) / 255, (c.b : Rat) / 255⟩

/-- The body of `applyAnnotationToPage` (index.tsx lines 243-314): the
drawing operations one annotation adds to the page, dispatching on
`annotation.type`.  The signature branch wraps its decode/embed/draw
in `try`/`catch`, so a malformed payload adds nothing and signals
nothing. -/
def annMarks (a : Annotation) (font : String) (isPreview : Bool) : List Mark :=
  match a.type with
  | .text =>
      [.textMark a.content a.position.x a.position.y 12 font
        (if isPreview then ⟨0, 0, 1/2⟩ else ⟨0, 0, 0⟩)]
  | .highlight =>
      match a.color with
      | some c =>
          if c.isEmpty then []
          else [.rectMark a.position.x a.position.y a.position.width a.position.height
            (unitRGB (hexToRgb c)) (if isPreview then 3/10 else 1/2)]
      | none => []
  | .underline =>
      match a.color with
      | some c =>
          if c.isEmpty then []
          else [.lineMark a.position.x a.position.y
            (a.position.x + a.position.width) a.position.y 2
            (unitRGB (hexToRgb c)) (if isPreview then 7/10 else 1)]
      | none => []
  | .comment =>
      [.textMark a.content a.position.x a.position.y 10 font
        (if isPreview then ⟨0, 0, 1/2⟩ else ⟨0, 0, 0⟩)]
  | .signature =>
      match a.imageData with
      | some d =>
          match decodeDataUrl d with
          | some img =>
              [.imageMark img a.position.x a.position.y 150 60
                (if isPreview then 7/10 else 1)]
          | none => []
      | none => []

/-- Embedding of `applyAnnotationToPage` on a defined page: mutating
`page` by the drawing calls of `annMarks` appends them in call
order. -/
def applyAnnotationToPage (a : Annotation) (page : Page) (font : String)
    (isPreview : Bool := false) : Page :=
  page ++ annMarks a font isPreview

/-- Whether the dispatch branch for this annotation reaches a drawing
call on the page object unconditionally: `text`/`comment` always call
`drawText`; `highlight`/`underline` only draw under a truthy `color`;
the `signature` branch never lets a throw escape (its body sits in
`try`/`catch`). -/
def callsDraw (a : Annotation) : Bool :=
  match a.type with
  | .text => true
  | .comment => true
  | .highlight => strTruthy a.color
  | .underline => strTruthy a.color
  | .signature => false

/-! Document codec.  pdf-lib (`PDFDocument.load` / `pdfDoc.save`) is an
external dependency, not in src/; per spec §4.4 `decode` fails with a
`DecodeError` on a malformed byte stream and `encode` is deterministic
given identical document state.  We model the raw byte buffer as
either a well-formed document (with its page count and opaque
content) or malformed junk. -/

/-- Modelled from the spec: the raw source-document byte buffer
consumed by `PDFDocument.load` (§6): either a well-formed document of
the supported format, carrying its page count and opaque page content,
or malformed bytes. -/
inductive RawPdf where
  | wellFormed (pageCount : Nat) (content : String)
  | malformed (junk : String)
deriving DecidableEq, Repr

/-- In-memory editable document: the retained source plus one overlay
mark list per page (all empty right after `load`). -/
structure PdfDoc where
  src : RawPdf
  pages : List Page
deriving DecidableEq, Repr

/-- Modelled from the spec: `PDFDocument.load` (§4.4 `decode`) —
parses well-formed bytes into an editable structure with one empty
overlay per page, and fails on malformed bytes. -/
def pdfLoad : RawPdf → Option PdfDoc
  | .wellFormed n content => some ⟨.wellFormed n content, List.replicate n []⟩
  | .malformed _ => none

/-- Modelled from the spec: `pdfDoc.save` (§4.4 `encode`) — a
deterministic serialization of the in-memory document state. -/
structure SavedPdf where
  doc : PdfDoc
deriving DecidableEq, Repr

/-- Serialize the document: deterministic function of the document
state alone. -/
def pdfSave (d : PdfDoc) : SavedPdf := ⟨d⟩

/-- Error outcomes of one render invocation: `PDFDocument.load`
rejecting malformed bytes, or a thrown `TypeError` from a drawing call
on the undefined first page of a zero-page document. -/
inductive RenderError where
  | decodeError
  | pageError
deriving DecidableEq, Repr

/-- One compositing step against the possibly-undefined first page
(`pdfDoc.getPages()[0]` is `undefined` when the document has no
pages): drawing on a real page appends the marks; a drawing call on
`undefined` throws. -/
def pageDraw (p : Option Page) (a : Annotation) (font : String) (isPreview : Bool) :
    Except RenderError (Option Page) :=
  match p with
  | some pg => .ok (some (applyAnnotationToPage a pg font isPreview))
  | none => if callsDraw a then .error .pageError else .ok none

/-- The committed-annotation loop of the pipeline (index.tsx lines
327-329 and 361-363): each annotation applied in store order with the
draft flag defaulted to `false`. -/
def applyCommitted (p : Option Page) (anns : List Annotation) (font : String) :
    Except RenderError (Option Page) :=
  match anns with
  | [] => .ok p
  | a :: rest => do
      let p1 ← pageDraw p a font false
      applyCommitted p1 rest font

/-- Write the mutated first page back into the document's page list. -/
def setFirstPage (pages : List Page) (p : Option Page) : List Page :=
  match pages, p with
  | _ :: t, some pg => pg :: t
  | l, _ => l

/-- The Helvetica font handle embedded by both pipeline entry points. -/
def helvetica : String := "Helvetica"

/-- The shared render pipeline (spec §4.5): decode, take the first
page, embed Helvetica, apply the committed annotations in order, then
the draft (when passed) with the draft flag `true`, and re-encode. -/
def renderPipeline (src : RawPdf) (anns : List Annotation) (draft : Option Annotation) :
    Except RenderError SavedPdf :=
  match pdfLoad src with
  | none => .error .decodeError
  | some doc => do
      let page0 := doc.pages.head?
      let p1 ← applyCommitted page0 anns helvetica
      let p2 ← match draft with
        | some d => pageDraw p1 d helvetica true
        | none => .ok p1
      .ok (pdfSave ⟨doc.src, setFirstPage doc.pages p2⟩)

/-! The component state.  The React `useState` fields that the
annotation logic reads and writes, with the loose draft fields
(`activeTool`, `content`, `position`, `color`, `signatureData`,
`editingId`, `previewMode`) kept as in the source.  `pdfUrl` holds the
content behind the object URL of the last successful render. -/

/-- The `useState` fields of `PDFEditor` used by the annotation
engine. -/
structure EditorState where
  pdfFile : Option RawPdf
  pdfUrl : Option SavedPdf
  annotations : List Annotation
  activeTool : AnnType
  content : String
  position : Pos
  color : String
  editingId : Option String
  previewMode : Bool
  signatureData : Option String
deriving DecidableEq, Repr

/-- The `newAnnotation` record built by `saveAnnotation` (index.tsx
lines 218-225); `freshId` stands for the `Date.now().toString()`
value minted when no id is being edited. -/
def newAnnotation (s : EditorState) (freshId : String) : Annotation :=
  { id := s.editingId.getD freshId
    type := s.activeTool
    content := if s.activeTool = .signature then "Signature" else s.content
    position := s.position
    color := if s.activeTool = .highlight ∨ s.activeTool = .underline
             then some s.color else none
    imageData := if s.activeTool = .signature then orUndefined s.signatureData else none }

/-- State resets of `cancelEditing` (index.tsx lines 207-213); the
render re-run it triggers is modelled separately by
`updatePdfPreview`. -/
def cancelEditing (s : EditorState) : EditorState :=
  { s with editingId := none, content := "", signatureData := none, previewMode := false }

/-- Embedding of `saveAnnotation` (index.tsx lines 215-234): the early
return fires when `content` is falsy for a non-signature tool or no
source document is loaded; otherwise the built annotation replaces the
entry under edit or is appended, and the draft fields are cleared. -/
def saveAnnotation (s : EditorState) (freshId : String) : EditorState :=
  if (s.content.isEmpty ∧ s.activeTool ≠ .signature) ∨ s.pdfFile = none then s
  else
    let ann := newAnnotation s freshId
    let committed := match s.editingId with
      | some eid => s.annotations.map (fun a => if a.id = eid then ann else a)
      | none => s.annotations ++ [ann]
    cancelEditing { s with annotations := committed }

/-- The draft gate of `updatePdfPreview` (index.tsx line 332):
`previewMode && (content || activeTool === 'signature')`. -/
def draftGate (s : EditorState) : Bool :=
  s.previewMode && (!s.content.isEmpty || s.activeTool = .signature)

/-- The `previewAnnotation` record of index.tsx lines 333-340: note
`color` is always set, whatever the active tool. -/
def previewAnnotation (s : EditorState) : Annotation :=
  { id := "preview"
    type := s.activeTool
    content := s.content
    position := s.position
    color := some s.color
    imageData := orUndefined s.signatureData }

/-- The render computed by one `updatePdfPreview` call (index.tsx
lines 317-350): `none` when no document is loaded (early return),
otherwise the pipeline result over the committed list and — under the
draft gate — the preview annotation with the draft flag `true`. -/
def previewRender (s : EditorState) : Option (Except RenderError SavedPdf) :=
  s.pdfFile.map fun f =>
    renderPipeline f s.annotations
      (if draftGate s then some ( previewAnnotation s) else none)

/-- State transition of `updatePdfPreview`: on success only `pdfUrl`
is replaced; the `catch` branch logs and leaves all state as it
was. -/
def updatePdfPreview (s : EditorState) : EditorState :=
  match previewRender s with
  | some (.ok out) => { s with pdfUrl := some out }
  | some (.error _) => s
  | none => s

/-- Embedding of `downloadPdf` (index.tsx lines 353-371): `none` for
the early return when no document is loaded; otherwise the pipeline
over the committed annotations only, with no `try`/`catch`, so an
error is the propagated rejection. -/
def downloadPdf (s : EditorState) : Option (Except RenderError SavedPdf) :=
  s.pdfFile.map fun f => renderPipeline f s.annotations none

/-- The color-field invariant of spec §3: `color` is set iff the kind
is Highlight or Underline. -/
def colorInv (a : Annotation) : Prop :=
  a.color.isSome = true ↔ (a.type = .highlight ∨ a.type = .underline)

instance (a : Annotation) : Decidable (colorInv a) := by
  unfold colorInv; infer_instance

/-! Concrete fixtures used by witnesses and counterexamples. -/

/-- A well-formed one-page source document. -/
def samplePdf : RawPdf := .wellFormed 1 "hello"

/-- A committed yellow highlight, as in the spec §8 scenario. -/
def sampleHighlight : Annotation :=
  ⟨"1", .highlight, "area", ⟨50, 50, 100, 20⟩, some "#FFFF00", none⟩

/-- A committed underline. -/
def sampleUnderline : Annotation :=
  ⟨"3", .underline, "u", ⟨5, 6, 30, 0⟩, some "#00FF00", none⟩

/-- A committed signature whose data-URI payload is not valid base64,
so raster decoding fails. -/
def badSig : Annotation :=
  ⟨"2", .signature, "Signature", ⟨10, 10, 0, 0⟩, none, some "data:image/png;base64,!!!!"⟩

/-- A highlight whose `color` field is absent. -/
def noColorHighlight : Annotation :=
  ⟨"9", .highlight, "x", ⟨1, 2, 3, 4⟩, none, none⟩

/-- A state mid-edit: one committed highlight, a text draft "Hi" in
preview mode. -/
def sampleState : EditorState :=
  { pdfFile := some samplePdf
    pdfUrl := none
    annotations := [sampleHighlight]
    activeTool := .text
    content := "Hi"
    position := ⟨10, 10, 0, 0⟩
    color := "#FFFF00"
    editingId := none
    previewMode := true
    signatureData := none }

/-- The export-shaped state: no draft in flight. -/
def exportState : EditorState :=
  { sampleState with previewMode := false }

/-- A second export-shaped state differing only in draft-input fields
the pipeline must not read when no draft is passed. -/
def exportState2 : EditorState :=
  { exportState with content := "other", color := "#000000", position := ⟨1, 2, 3, 4⟩ }

/-- A state whose draft is a signature with no captured image. -/
def sigState : EditorState :=
  { sampleState with activeTool := .signature, content := "", signatureData := none }

/-- A state whose draft is a text annotation with empty content. -/
def emptyTextState : EditorState :=
  { sampleState with activeTool := .text, content := "" }

/-- A state whose loaded document bytes are malformed. -/
def badPdfState : EditorState :=
  { sampleState with pdfFile := some (.malformed "junk") }

/-! General lemmas about the embedding. -/

lemma hexVal_le_of_isHexDigitChar {c : Char} (h : isHexDigitChar c = true) :
    hexVal c ≤ 15 := by
  unfold isHexDigitChar at h
  unfold hexVal
  simp only [decide_eq_true_eq] at h
  rcases h with h | h | h <;> split_ifs <;> omega

lemma hexToRgbList_not_shape {l : List Char}
    (h : (decide (l.length = 6) && l.all isHexDigitChar) = false) :
    hexToRgbList l = ⟨0, 0, 0⟩ := by
  match l with
  | [] => rfl
  | [a] => rfl
  | [a, b] => rfl
  | [a, b, c] => rfl
  | [a, b, c, d] => rfl
  | [a, b, c, d, e] => rfl
  | [a, b, c, d, e, f] =>
      simp only [List.length_cons, List.length_nil, List.all_cons, List.all_nil] at h
      simp only [hexToRgbList, ite_eq_right_iff]
      intro hc
      simp only [Bool.and_eq_true] at hc
      obtain ⟨⟨⟨⟨⟨ha, hb⟩, hc2⟩, hd⟩, he⟩, hf⟩ := hc
      simp [ha, hb, hc2, hd, he, hf] at h
  | a :: b :: c :: d :: e :: f :: g :: rest => rfl

lemma hexToRgb_of_not_shape {s : String} (h : specColorShape s = false) :
    hexToRgb s = ⟨0, 0, 0⟩ := by
  unfold specColorShape at h
  unfold hexToRgb
  exact hexToRgbList_not_shape (by simpa using h)

lemma hexToRgbList_channels_le (l : List Char) :
    (hexToRgbList l).r ≤ 255 ∧ (hexToRgbList l).g ≤ 255 ∧ (hexToRgbList l).b ≤ 255 := by
  match l with
  | [] => exact ⟨Nat.zero_le _, Nat.zero_le _, Nat.zero_le _⟩
  | [a] => exact ⟨Nat.zero_le _, Nat.zero_le _, Nat.zero_le _⟩
  | [a, b] => exact ⟨Nat.zero_le _, Nat.zero_le _, Nat.zero_le _⟩
  | [a, b, c] => exact ⟨Nat.zero_le _, Nat.zero_le _, Nat.zero_le _⟩
  | [a, b, c, d] => exact ⟨Nat.zero_le _, Nat.zero_le _, Nat.zero_le _⟩
  | [a, b, c, d, e] => exact ⟨Nat.zero_le _, Nat.zero_le _, Nat.zero_le _⟩
  | [a, b, c, d, e, f] =>
      simp only [hexToRgbList]
      by_cases h : (isHexDigitChar a && isHexDigitChar b && isHexDigitChar c &&
          isHexDigitChar d && isHexDigitChar e && isHexDigitChar f) = true
      · rw [if_pos h]
        simp only [Bool.and_eq_true] at h
        obtain ⟨⟨⟨⟨⟨ha, hb⟩, hc⟩, hd⟩, he⟩, hf⟩ := h
        have va := hexVal_le_of_isHexDigitChar ha
        have vb := hexVal_le_of_isHexDigitChar hb
        have vc := hexVal_le_of_isHexDigitChar hc
        have vd := hexVal_le_of_isHexDigitChar hd
        have ve := hexVal_le_of_isHexDigitChar he
        have vf := hexVal_le_of_isHexDigitChar hf
        refine ⟨?_, ?_, ?_⟩ <;> dsimp only <;> omega
      · rw [if_neg h]
        exact ⟨Nat.zero_le _, Nat.zero_le _, Nat.zero_le _⟩
  | a :: b :: c :: d :: e :: f :: g :: rest =>
      exact ⟨Nat.zero_le _, Nat.zero_le _, Nat.zero_le _⟩

lemma hexToRgb_channels_le (s : String) :
    (hexToRgb s).r ≤ 255 ∧ (hexToRgb s).g ≤ 255 ∧ (hexToRgb s).b ≤ 255 :=
  hexToRgbList_channels_le (hexBody s)

lemma applyCommitted_some (anns : List Annotation) (pg : Page) (font : String) :
    applyCommitted (some pg) anns font =
      .ok (some (pg ++ (anns.map fun a => annMarks a font false).flatten)) := by
  induction anns generalizing pg with
  | nil => simp [applyCommitted]
  | cons a rest ih =>
      simp [applyCommitted, pageDraw, applyAnnotationToPage, Bind.bind, Except.bind,
        ih, List.append_assoc]

lemma renderPipeline_wellFormed (n : Nat) (c : String) (anns : List Annotation)
    (draft : Option Annotation) :
    renderPipeline (RawPdf.wellFormed (n + 1) c) anns draft =
      .ok (pdfSave ⟨RawPdf.wellFormed (n + 1) c,
        ((anns.map fun a => annMarks a helvetica false).flatten ++
          (draft.map fun d => annMarks d helvetica true).getD []) ::
          List.replicate n []⟩) := by
  cases draft with
  | none =>
      simp [renderPipeline, pdfLoad, List.replicate_succ, applyCommitted_some,
        Bind.bind, Except.bind, setFirstPage, pdfSave]
  | some d =>
      simp [renderPipeline, pdfLoad, List.replicate_succ, applyCommitted_some,
        Bind.bind, Except.bind, setFirstPage, pdfSave, pageDraw, applyAnnotationToPage,
        List.append_assoc]

lemma annMarks_failed_signature {a : Annotation} {d : String} (font : String)
    (isPreview : Bool) (hk : a.type = .signature) (hd : a.imageData = some d)
    (hfail : decodeDataUrl d = none) :
    annMarks a font isPreview = [] := by
  simp [annMarks, hk, hd, hfail]

lemma newAnn_colorInv (s : EditorState) (freshId : String) :
    colorInv ( newAnnotation s freshId) := by
  unfold colorInv newAnnotation
  by_cases h : s.activeTool = .highlight ∨ s.activeTool = .underline <;> simp [h]

/-! Claim theorems. -/

/-- C1: the decode-composite-encode pipeline is a deterministic
function of (source bytes, committed annotations, no draft): two
renders whose states agree on the loaded document and on the committed
list, both without an active draft, produce identical output buffers;
moreover the no-draft preview render coincides with the export render
`downloadPdf` over the same state. -/
theorem C1_render_deterministic :
    (∀ s1 s2 : EditorState, s1.pdfFile = s2.pdfFile →
      s1.annotations = s2.annotations → draftGate s1 = false → draftGate s2 = false →
      previewRender s1 = previewRender s2) ∧
    (∀ s : EditorState, draftGate s = false → previewRender s = downloadPdf s) := by
  constructor
  · intro s1 s2 hf ha h1 h2
    simp [previewRender, h1, h2, hf, ha]
  · intro s h
    simp [previewRender, downloadPdf, h]

/-- C1 witness: two export-shaped states sharing document and
committed list but with different draft-input fields render
identically, and the preview render equals the export render. -/
theorem C1_render_deterministic_witness :
    previewRender exportState = previewRender exportState2 ∧
    previewRender exportState = downloadPdf exportState :=
  ⟨C1_render_deterministic.1 exportState exportState2 rfl rfl (by decide) (by decide),
   C1_render_deterministic.2 exportState (by decide)⟩

/-- C2 counterexample: `saveAnnotation` invoked on a loaded document
with the signature tool active and no captured `signatureData` does
change the committed sequence — the guard at index.tsx line 216 only
checks `content` for non-signature tools, so a Signature draft with no
imageData is appended rather than silently rejected. -/
theorem C2_counterexample :
    sigState.activeTool = .signature ∧ sigState.signatureData = none ∧
    ( saveAnnotation sigState "1700000000000").annotations ≠ sigState.annotations := by
  decide

/-- C2 amended: `saveAnnotation` leaves the whole state (in particular
the committed sequence) unchanged exactly when the draft has empty
content with a non-signature tool, or no source document is loaded; a
Signature draft with no imageData is only blocked by the UI layer (the
disabled Save button), not by `saveAnnotation` itself. -/
theorem C2_saveAnnotation_guard (s : EditorState) (freshId : String)
    (h : (s.content.isEmpty ∧ s.activeTool ≠ .signature) ∨ s.pdfFile = none) :
    saveAnnotation s freshId = s := by
  unfold saveAnnotation
  rw [if_pos h]

/-- C2 witness: a Text draft with empty content is silently rejected —
the state is unchanged. -/
theorem C2_saveAnnotation_guard_witness :
    saveAnnotation emptyTextState "1700000000000" = emptyTextState :=
  C2_saveAnnotation_guard emptyTextState "1700000000000" (by decide)

/-- C3: one render pass composites the committed annotations onto the
first page in store order with the draft flag false, and then — when a
draft is present and passes the commit gate — the draft's marks with
the draft flag true, appended last. -/
theorem C3_render_order (s : EditorState) (n : Nat) (c : String)
    (hf : s.pdfFile = some (RawPdf.wellFormed (n + 1) c)) :
    previewRender s = some (.ok (pdfSave ⟨RawPdf.wellFormed (n + 1) c,
      ((s.annotations.map fun a => annMarks a helvetica false).flatten ++
        (if draftGate s then annMarks ( previewAnnotation s) helvetica true else [])) ::
        List.replicate n []⟩)) := by
  simp only [previewRender, hf, Option.map_some']
  rw [renderPipeline_wellFormed]
  cases h : draftGate s <;> simp

/-- C3 witness: in the sample mid-edit state the page receives the
committed highlight's mark first and the draft text mark last. -/
theorem C3_render_order_witness :
    previewRender sampleState = some (.ok (pdfSave ⟨samplePdf,
      [annMarks sampleHighlight helvetica false ++
        annMarks ( previewAnnotation sampleState) helvetica true]⟩)) := by
  have h := C3_render_order sampleState 0 "hello" rfl
  simpa using h

/-- C4: a committed Signature annotation whose payload fails raster
decoding adds no mark and aborts nothing: the render equals the render
without that annotation, and it succeeds with every other annotation's
marks composited. -/
theorem C4_signature_failure_isolated (n : Nat) (c d : String) (a : Annotation)
    (l1 l2 : List Annotation) (draft : Option Annotation)
    (hk : a.type = .signature) (hd : a.imageData = some d)
    (hfail : decodeDataUrl d = none) :
    renderPipeline (RawPdf.wellFormed (n + 1) c) (l1 ++ a :: l2) draft =
      renderPipeline (RawPdf.wellFormed (n + 1) c) (l1 ++ l2) draft ∧
    renderPipeline (RawPdf.wellFormed (n + 1) c) (l1 ++ a :: l2) draft =
      .ok (pdfSave ⟨RawPdf.wellFormed (n + 1) c,
        (((l1 ++ l2).map fun x => annMarks x helvetica false).flatten ++
          (draft.map fun x => annMarks x helvetica true).getD []) ::
          List.replicate n []⟩) := by
  have hm := annMarks_failed_signature helvetica false hk hd hfail
  constructor
  · rw [renderPipeline_wellFormed, renderPipeline_wellFormed]
    simp [hm]
  · rw [renderPipeline_wellFormed]
    simp [hm]

/-- C4 witness: with one committed highlight and one committed
corrupted signature, the render succeeds, equals the render without
the signature, and the highlight's rectangle is in the output. -/
theorem C4_signature_failure_isolated_witness :
    renderPipeline samplePdf [sampleHighlight, badSig] none =
      renderPipeline samplePdf [sampleHighlight] none ∧
    renderPipeline samplePdf [sampleHighlight, badSig] none =
      .ok (pdfSave ⟨samplePdf, [annMarks sampleHighlight helvetica false]⟩) := by
  have h := C4_signature_failure_isolated 0 "hello" "data:image/png;base64,!!!!"
    badSig [sampleHighlight] [] none rfl rfl (by decide)
  constructor
  · exact h.1
  · simpa using h.2

/-- C5: `hexToRgb` accepts an optional leading `#` plus exactly six
hex digits case-insensitively, decodes the channels into `[0, 255]`
(`"#FF00AA" ↦ {255, 0, 170}`), and on every other shape returns black
`{0, 0, 0}` without raising an error. -/
theorem C5_hexToRgb_spec :
    hexToRgb "#FF00AA" = ⟨255, 0, 170⟩ ∧
    hexToRgb "ff00aa" = ⟨255, 0, 170⟩ ∧
    hexToRgb "ZZZZZZ" = ⟨0, 0, 0⟩ ∧
    (∀ s : String, specColorShape s = false → hexToRgb s = ⟨0, 0, 0⟩) ∧
    (∀ s : String, (hexToRgb s).r ≤ 255 ∧ (hexToRgb s).g ≤ 255 ∧ (hexToRgb s).b ≤ 255) :=
  ⟨by decide, by decide, by decide,
   fun s h => hexToRgb_of_not_shape h,
   fun s => hexToRgb_channels_le s⟩

/-- C5 witness: the fail-closed branch evaluated at the concrete
non-matching input `"12345G!"` and the bound at `"#FF00AA"`. -/
theorem C5_hexToRgb_spec_witness :
    hexToRgb "12345G!" = ⟨0, 0, 0⟩ ∧
    ((hexToRgb "#FF00AA").r ≤ 255 ∧ (hexToRgb "#FF00AA").g ≤ 255 ∧
      (hexToRgb "#FF00AA").b ≤ 255) :=
  ⟨C5_hexToRgb_spec.2.2.2.1 "12345G!" (by decide),
   C5_hexToRgb_spec.2.2.2.2 "#FF00AA"⟩

/-- C6: rendering never mutates the committed sequence — after any
`updatePdfPreview` pass the `annotations` list is exactly what it was,
and the only field that can change at all is `pdfUrl`, so the draft
has not been implicitly promoted. -/
theorem C6_draft_isolation (s : EditorState) :
    (updatePdfPreview s).annotations = s.annotations ∧
    updatePdfPreview s = { s with pdfUrl := (updatePdfPreview s).pdfUrl } := by
  unfold updatePdfPreview
  cases h : previewRender s with
  | none => exact ⟨rfl, rfl⟩
  | some r =>
      cases r with
      | ok out => exact ⟨rfl, rfl⟩
      | error e => exact ⟨rfl, rfl⟩

/-- C7: when decoding the source document fails the render is fatal
with no partial output — the pipeline yields a `DecodeError`, the
caught preview pass leaves the whole state (store and previous output
URL) untouched, and `downloadPdf` surfaces the same error. -/
theorem C7_decode_failure (s : EditorState) (j : String)
    (h : s.pdfFile = some (RawPdf.malformed j)) :
    previewRender s = some (.error .decodeError) ∧
    updatePdfPreview s = s ∧
    downloadPdf s = some (.error .decodeError) := by
  have hp : previewRender s = some (.error .decodeError) := by
    simp [previewRender, h, renderPipeline, pdfLoad]
  refine ⟨hp, ?_, ?_⟩
  · unfold updatePdfPreview
    rw [hp]
  · simp [downloadPdf, h, renderPipeline, pdfLoad]

/-- C7 witness: the malformed-document state renders to a
`DecodeError` and keeps its state. -/
theorem C7_decode_failure_witness :
    previewRender badPdfState = some (.error .decodeError) ∧
    updatePdfPreview badPdfState = badPdfState ∧
    downloadPdf badPdfState = some (.error .decodeError) :=
  C7_decode_failure badPdfState "junk" rfl

/-- C8: the per-kind drawing parameters — Text at (x, y) size 12, full
black committed and muted navy `rgb(0, 0, 0.5)` as draft; Highlight a
filled rectangle over the geometry in the parsed color at opacity
0.5 committed / 0.3 draft; Underline a line from (x, y) to
(x+width, y) of thickness 2 at opacity 1.0 committed / 0.7 draft. -/
theorem C8_fixed_params (a : Annotation) (isp : Bool) :
    (a.type = .text →
      annMarks a helvetica isp =
        [.textMark a.content a.position.x a.position.y 12 helvetica
          (if isp then ⟨0, 0, 1/2⟩ else ⟨0, 0, 0⟩)]) ∧
    (∀ c : String, a.type = .highlight → a.color = some c → c.isEmpty = false →
      annMarks a helvetica isp =
        [.rectMark a.position.x a.position.y a.position.width a.position.height
          (unitRGB (hexToRgb c)) (if isp then 3/10 else 1/2)]) ∧
    (∀ c : String, a.type = .underline → a.color = some c → c.isEmpty = false →
      annMarks a helvetica isp =
        [.lineMark a.position.x a.position.y (a.position.x + a.position.width)
          a.position.y 2 (unitRGB (hexToRgb c)) (if isp then 7/10 else 1)]) := by
  refine ⟨?_, ?_, ?_⟩
  · intro h
    simp [annMarks, h]
  · intro c h hc hne
    simp [annMarks, h, hc, hne]
  · intro c h hc hne
    simp [annMarks, h, hc, hne]

/-- C8 witness: the three kinds evaluated on concrete annotations —
the draft text mark of the sample state, the committed sample
highlight, and the sample underline as draft. -/
theorem C8_fixed_params_witness :
    annMarks ( previewAnnotation sampleState) helvetica true =
      [.textMark "Hi" 10 10 12 helvetica ⟨0, 0, 1/2⟩] ∧
    annMarks sampleHighlight helvetica false =
      [.rectMark 50 50 100 20 (unitRGB (hexToRgb "#FFFF00")) (1/2)] ∧
    annMarks sampleUnderline helvetica true =
      [.lineMark 5 6 35 6 2 (unitRGB (hexToRgb "#00FF00")) (7/10)] := by
  refine ⟨?_, ?_, ?_⟩
  · exact (C8_fixed_params ( previewAnnotation sampleState) true).1 rfl
  · exact (C8_fixed_params sampleHighlight false).2.1 "#FFFF00" rfl rfl rfl
  · have h := (C8_fixed_params sampleUnderline true).2.2 "#00FF00" rfl rfl rfl
    simpa using h

/-- C9 counterexample: in the sample mid-edit state the draft handed
to the compositor has kind Text yet its `color` field is set
(index.tsx line 338 passes `color` unconditionally), refuting "color
is set only if kind is Highlight or Underline" for drafts. -/
theorem C9_counterexample :
    draftGate sampleState = true ∧
    ( previewAnnotation sampleState).type = .text ∧
    ( previewAnnotation sampleState).color.isSome = true := by
  decide

/-- C9 amended: every annotation built by `saveAnnotation` satisfies
"color is set iff kind ∈ {Highlight, Underline}", and `saveAnnotation`
preserves that invariant across the committed sequence; the draft
handed to the compositor, however, always has `color` set, whatever
its kind. -/
theorem C9_color_invariant (s : EditorState) (freshId : String) :
    colorInv ( newAnnotation s freshId) ∧
    ((∀ a ∈ s.annotations, colorInv a) →
      ∀ a ∈ ( saveAnnotation s freshId).annotations, colorInv a) ∧
    ( previewAnnotation s).color = some s.color := by
  refine ⟨newAnn_colorInv s freshId, ?_, rfl⟩
  intro hall a ha
  unfold saveAnnotation at ha
  split at ha
  · exact hall a ha
  · simp only [cancelEditing] at ha
    rcases he : s.editingId with _ | eid
    · rw [he] at ha
      simp only [List.mem_append, List.mem_singleton] at ha
      rcases ha with ha | ha
      · exact hall a ha
      · rw [ha]
        exact newAnn_colorInv s freshId
    · rw [he] at ha
      simp only [List.mem_map] at ha
      obtain ⟨a0, ha0, heq⟩ := ha
      by_cases hid : a0.id = eid
      · rw [if_pos hid] at heq
        rw [← heq]
        exact newAnn_colorInv s freshId
      · rw [if_neg hid] at heq
        rw [← heq]
        exact hall a0 ha0

/-- C9 witness: the invariant evaluated after saving the sample
state's draft, and the always-set draft color at the sample state. -/
theorem C9_color_invariant_witness :
    colorInv ( newAnnotation sampleState "1700000000000") ∧
    (∀ a ∈ ( saveAnnotation sampleState "1700000000000").annotations, colorInv a) ∧
    ( previewAnnotation sampleState).color = some "#FFFF00" :=
  ⟨(C9_color_invariant sampleState "1700000000000").1,
   (C9_color_invariant sampleState "1700000000000").2.1 (by decide),
   (C9_color_invariant sampleState "1700000000000").2.2⟩

/-- C10: a Highlight or Underline annotation with no `color` field
draws nothing — the page is returned unchanged and no error is
signalled. -/
theorem C10_missing_color_noop (a : Annotation) (pg : Page) (font : String)
    (isp : Bool) (hk : a.type = .highlight ∨ a.type = .underline)
    (hc : a.color = none) :
    annMarks a font isp = [] ∧
    applyAnnotationToPage a pg font isp = pg ∧
    pageDraw (some pg) a font isp = .ok (some pg) := by
  have hm : annMarks a font isp = [] := by
    rcases hk with h | h <;> simp [annMarks, h, hc]
  refine ⟨hm, ?_, ?_⟩
  · simp [applyAnnotationToPage, hm]
  · simp [pageDraw, applyAnnotationToPage, hm]

/-- C10 witness: the colorless highlight leaves a concrete page
unchanged and returns no error. -/
theorem C10_missing_color_noop_witness :
    annMarks noColorHighlight helvetica false = [] ∧
    applyAnnotationToPage noColorHighlight [] helvetica false = [] ∧
    pageDraw (some []) noColorHighlight helvetica false = .ok (some []) :=
  C10_missing_color_noop noColorHighlight [] helvetica false (Or.inl rfl) rfl
